import Mathlib

/-!
Shallow embedding of `fs_mgr/libfs_avb/avb_util.cpp` (Android verified-boot
partition validator).  Byte strings (`std::string`, `uint8_t*` buffers) are
modelled as `List Char`; machine integers as `Nat` (none of the embedded
arithmetic can overflow in the claims considered, and C++ `size_t`
comparisons such as `pk_len <= 0` become `= 0`).  External collaborators
(the libavb primitives, the filesystem, the device mapper) are modelled as
explicit environment records whose fields record the outcome the external
call would produce; the control flow of the embedded functions is translated
from the source.
-/

namespace AvbUtil

/-- Embeds `enum class VBMetaVerifyResult` from `fs_avb` (order as in
`VBMetaVerifyResultToString`). -/
inductive VBMetaVerifyResult
  | kSuccess
  | kError
  | kErrorVerification
  | kUnknown
deriving DecidableEq

/-- The verdict of the external libavb primitive `avb_vbmeta_image_verify`.
`UNKNOWN_VERDICT n` stands for any out-of-range enum value hitting the
`default:` branch of the `switch`. -/
inductive AvbVBMetaVerifyResult
  | OK
  | OK_NOT_SIGNED
  | HASH_MISMATCH
  | SIGNATURE_MISMATCH
  | INVALID_VBMETA_HEADER
  | UNSUPPORTED_VERSION
  | UNKNOWN_VERDICT (code : Nat)
deriving DecidableEq

/-- What `avb_vbmeta_image_verify` hands back: the verdict, the recovered
public-key pointer (`none` models a null pointer; the list carries the bytes
readable at the pointer) and the recovered key length `pk_len`. -/
structure AvbVerifyOutcome where
  verdict : AvbVBMetaVerifyResult
  pk_data : Option (List Char)
  pk_len : Nat
deriving DecidableEq

/-- Embeds `VerifyPublicKeyBlob(key, length, expected_key_blob)`: empty expectation
always passes; otherwise the lengths must agree and `memcmp` over `length`
bytes must find no difference. -/
def VerifyPublicKeyBlob (key : List Char) (length : Nat) (expected_key_blob : List Char) : Bool :=
  if expected_key_blob.isEmpty then true
  else if expected_key_blob.length ≠ length then false
  else if key.take length = expected_key_blob then true
  else false

/-- Embeds `VerifyVBMetaSignature`, as a function of the primitive outcome on the
blob and the expected public-key blob. -/
def VerifyVBMetaSignature (outcome : AvbVerifyOutcome) (expected_public_key_blob : List Char) :
    VBMetaVerifyResult :=
  match outcome.verdict with
  | .OK =>
    match outcome.pk_data with
    | none => .kError
    | some pk =>
      if outcome.pk_len = 0 then .kError
      else if !(VerifyPublicKeyBlob pk outcome.pk_len expected_public_key_blob) then
        .kErrorVerification
      else .kSuccess
  | .OK_NOT_SIGNED => .kErrorVerification
  | .HASH_MISMATCH => .kErrorVerification
  | .SIGNATURE_MISMATCH => .kErrorVerification
  | .INVALID_VBMETA_HEADER => .kError
  | .UNSUPPORTED_VERSION => .kError
  | .UNKNOWN_VERDICT _ => .kError

/-- The two footer fields the reader consumes (`AvbFooter`, already validated
and byteswapped by `GetAvbFooter`). -/
structure AvbFooter where
  vbmeta_offset : Nat
  vbmeta_size : Nat
deriving DecidableEq

/-- Embeds `VBMetaData::kMaxVBMetaSize = 64 * 1024`. -/
def kMaxVBMetaSize : Nat := 64 * 1024

/-- Parsed `AvbVBMetaImageHeader` fields the walker consumes. -/
structure AvbVBMetaImageHeader where
  authentication_data_block_size : Nat
  auxiliary_data_block_size : Nat
  flags : Nat
  rollback_index : Nat
deriving DecidableEq

/-- Embeds `sizeof(AvbVBMetaImageHeader)` (libavb fixes the header at 256 bytes). -/
def sizeofAvbVBMetaImageHeader : Nat := 256

/-- Embeds `AVB_DESCRIPTOR_TAG_HASHTREE` (libavb). -/
def AVB_DESCRIPTOR_TAG_HASHTREE : Nat := 1

/-- Embeds `AVB_DESCRIPTOR_TAG_CHAIN_PARTITION` (libavb). -/
def AVB_DESCRIPTOR_TAG_CHAIN_PARTITION : Nat := 4

/-- Embeds `AVB_VBMETA_IMAGE_FLAGS_VERIFICATION_DISABLED = (1 << 1)` (libavb). -/
def AVB_VBMETA_IMAGE_FLAGS_VERIFICATION_DISABLED : Nat := 2

/-- Parsed `AvbHashtreeDescriptor` fields consumed by this file. -/
structure AvbHashtreeDescriptor where
  dm_verity_version : Nat
  image_size : Nat
  tree_offset : Nat
  data_block_size : Nat
  hash_block_size : Nat
  fec_num_roots : Nat
  fec_offset : Nat
  fec_size : Nat
  hash_algorithm : List Char
  partition_name_len : Nat
  salt_len : Nat
  root_digest_len : Nat
deriving DecidableEq

/-- Parsed `AvbChainPartitionDescriptor` fields consumed by this file. -/
structure AvbChainPartitionDescriptor where
  partition_name_len : Nat
  public_key_len : Nat
deriving DecidableEq

/-- One untrusted descriptor pointer as returned by `avb_descriptor_get_all`:
whether the generic `avb_descriptor_validate_and_byteswap` succeeds and with
which `tag`; whether the hashtree / chain-partition
`..._validate_and_byteswap` succeeds and with which parsed fields; and the
raw bytes that follow the fixed-size struct (name, then salt/digest or
public key). -/
structure RawDescriptor where
  headerValid : Bool
  tag : Nat
  hashtreeDesc : Option AvbHashtreeDescriptor
  chainDesc : Option AvbChainPartitionDescriptor
  body : List Char
deriving DecidableEq

/-- Embeds `VBMetaData`: the owned blob, modelled by the partition it was read
from, its size, its parsed header, and the outcome `avb_descriptor_get_all`
would produce on its bytes (`none` models a null descriptor table). -/
structure VBMetaD where
  partition : List Char
  size : Nat
  header : AvbVBMetaImageHeader
  descriptors : Option (List RawDescriptor)
deriving DecidableEq

/-- Embeds `VBMetaData::GetVBMetaHeader(true)`: returns the byteswapped header and
updates the authoritative size to
`sizeof(AvbVBMetaImageHeader) + authentication_data_block_size +
auxiliary_data_block_size`. -/
def GetVBMetaHeader (vb : VBMetaD) : AvbVBMetaImageHeader × VBMetaD :=
  (vb.header,
   { vb with
     size := sizeofAvbVBMetaImageHeader + vb.header.authentication_data_block_size +
             vb.header.auxiliary_data_block_size })

/-- Environment of one `VerifyVBMetaData` call: the footer `GetAvbFooter`
would return for the open descriptor (`none` models a missing or invalid
footer), the byte count `pread64` returns for a given (size, offset) request
(`none` models a negative return), the `avb_vbmeta_image_verify` outcome on
the blob, and the parsed content of the blob. -/
structure VBMetaDataEnv where
  footer : Option AvbFooter
  pread : Nat → Nat → Option Nat
  avbOutcome : AvbVerifyOutcome
  header : AvbVBMetaImageHeader
  descriptors : Option (List RawDescriptor)

/-- Embeds `VerifyVBMetaData(fd, partition_name, expected_public_key_blob, out)`:
returns the `VBMetaData` (or `none` for a null `unique_ptr`) and the value
written through `out_verify_result` (`none` when the function fails before
the signature check and leaves `out` unwritten). -/
def VerifyVBMetaData (env : VBMetaDataEnv) (partition_name expected_public_key_blob : List Char) :
    Option VBMetaD × Option VBMetaVerifyResult :=
  let is_vbmeta_partition := ("vbmeta".toList).isPrefixOf partition_name
  let loc : Option (Nat × Nat) :=
    if is_vbmeta_partition then some (0, kMaxVBMetaSize)
    else match env.footer with
         | none => none
         | some footer => some (footer.vbmeta_offset, footer.vbmeta_size)
  match loc with
  | none => (none, none)
  | some (vbmeta_offset, vbmeta_size) =>
    if vbmeta_size > kMaxVBMetaSize then (none, none)
    else match env.pread vbmeta_size vbmeta_offset with
    | none => (none, none)
    | some num_read =>
      if !is_vbmeta_partition && num_read ≠ vbmeta_size then (none, none)
      else
        let verify_result := VerifyVBMetaSignature env.avbOutcome expected_public_key_blob
        if verify_result = .kSuccess ∨ verify_result = .kErrorVerification then
          (some ⟨partition_name, vbmeta_size, env.header, env.descriptors⟩, some verify_result)
        else (none, some verify_result)

/-- Index of the last occurrence of `needle` in `s` (`std::string::rfind`),
`none` when absent. -/
def rfindSubstr (needle s : List Char) : Option Nat :=
  ((List.range (s.length + 1)).filter (fun i => needle.isPrefixOf (s.drop i))).getLast?

/-- Embeds `AvbPartitionToDevicePatition`: erase from the last occurrence of
`"_other"` to the end and append `ab_other_suffix`; otherwise append
`ab_suffix`. -/
def AvbPartitionToDevicePatition (avb_partition_name ab_suffix ab_other_suffix : List Char) :
    List Char :=
  match rfindSubstr "_other".toList avb_partition_name with
  | some other_suffix_pos => avb_partition_name.take other_suffix_pos ++ ab_other_suffix
  | none => avb_partition_name ++ ab_suffix

/-- The Forward Error Correction arguments of `DmTargetVerity::UseFec(device,
num_roots, num_blocks, start)`. -/
structure VerityFec where
  device : List Char
  num_roots : Nat
  num_blocks : Nat
  start : Nat
deriving DecidableEq

/-- The `DmTargetVerity` the table is built from: constructor arguments, the
optional FEC arguments, the optional verity-mode token, and the
`ignore_zero_blocks` flag. -/
structure DmTargetVerity where
  start : Nat
  length : Nat
  version : Nat
  data_device : List Char
  hash_device : List Char
  data_block_size : Nat
  hash_block_size : Nat
  num_data_blocks : Nat
  hash_start_block : Nat
  hash_algorithm : List Char
  root_digest : List Char
  salt : List Char
  fec : Option VerityFec
  verity_mode : Option (List Char)
  ignore_zero_blocks : Bool
deriving DecidableEq

/-- Embeds `ConstructVerityTable(hashtree_desc, salt, root_digest, blk_device,
table)`.  `boot_veritymode` is the value `fs_mgr_get_boot_config` reads for
the key `veritymode` (`none` when the key is absent, in which case the
source defaults to `"enforcing"`).  Returns the single target added to the
table, or `none` when the function returns `false` (unknown veritymode). -/
def ConstructVerityTable (boot_veritymode : Option (List Char))
    (hashtree_desc : AvbHashtreeDescriptor) (salt root_digest blk_device : List Char) :
    Option DmTargetVerity :=
  let verity_mode := boot_veritymode.getD "enforcing".toList
  let dm_verity_mode : Option (Option (List Char)) :=
    if verity_mode = "enforcing".toList then some (some "restart_on_corruption".toList)
    else if verity_mode = "logging".toList then some (some "ignore_corruption".toList)
    else if verity_mode ≠ "eio".toList then none
    else some none
  match dm_verity_mode with
  | none => none
  | some mode =>
    some
      { start := 0
        length := hashtree_desc.image_size / 512
        version := hashtree_desc.dm_verity_version
        data_device := blk_device
        hash_device := blk_device
        data_block_size := hashtree_desc.data_block_size
        hash_block_size := hashtree_desc.hash_block_size
        num_data_blocks := hashtree_desc.image_size / hashtree_desc.data_block_size
        hash_start_block := hashtree_desc.tree_offset / hashtree_desc.hash_block_size
        hash_algorithm := hashtree_desc.hash_algorithm
        root_digest := root_digest
        salt := salt
        fec :=
          if hashtree_desc.fec_size > 0 then
            some ⟨blk_device, hashtree_desc.fec_num_roots,
                  hashtree_desc.fec_offset / hashtree_desc.data_block_size,
                  hashtree_desc.fec_offset / hashtree_desc.data_block_size⟩
          else none
        verity_mode := mode
        ignore_zero_blocks := true }

/-- The mount record; the source only mutates its `blk_device` field. -/
structure FstabEntry where
  blk_device : List Char
  mount_point : List Char
deriving DecidableEq

/-- Environment of one `HashtreeDmVeritySetup` call: the boot `veritymode`
value, whether `table.valid()` holds, whether `dm.CreateDevice` succeeds,
the path `dm.GetDmDevicePathByName` yields (`none` for failure), and whether
`WaitForFile(path, 1s)` succeeds. -/
structure DmEnv where
  boot_veritymode : Option (List Char)
  table_valid : Bool
  create_device_ok : Bool
  dm_device_path : Option (List Char)
  wait_for_file : List Char → Bool

/-- Embeds `HashtreeDmVeritySetup(fstab_entry, hashtree_desc, salt, root_digest,
wait_for_verity_dev)`: returns the boolean result and the final state of
`*fstab_entry`. -/
def HashtreeDmVeritySetup (env : DmEnv) (fstab_entry : FstabEntry)
    (hashtree_desc : AvbHashtreeDescriptor) (salt root_digest : List Char)
    (wait_for_verity_dev : Bool) : Bool × FstabEntry :=
  match ConstructVerityTable env.boot_veritymode hashtree_desc salt root_digest
      fstab_entry.blk_device with
  | none => (false, fstab_entry)
  | some _target =>
    if !env.table_valid then (false, fstab_entry)
    else if !env.create_device_ok then (false, fstab_entry)
    else match env.dm_device_path with
    | none => (false, fstab_entry)
    | some dev_path =>
      let fstab_entry1 := { fstab_entry with blk_device := dev_path }
      if wait_for_verity_dev && !(env.wait_for_file dev_path) then (false, fstab_entry1)
      else (true, fstab_entry1)

/-- Embeds `ChainInfo`: the pair handed from the chain walker to its recursive
self. -/
structure ChainInfo where
  partition_name : List Char
  public_key_blob : List Char
deriving DecidableEq

/-- The descriptor loop of `GetChainPartitionInfo`: collects chain-partition
entries; any descriptor failing validate-and-byteswap empties the result and
raises the fatal flag. -/
def collectChains : List RawDescriptor → List ChainInfo → List ChainInfo × Bool
  | [], chain_partitions => (chain_partitions, false)
  | d :: ds, chain_partitions =>
    if !d.headerValid then ([], true)
    else if d.tag = AVB_DESCRIPTOR_TAG_CHAIN_PARTITION then
      match d.chainDesc with
      | none => ([], true)
      | some chain_desc =>
        collectChains ds
          (chain_partitions ++
           [⟨d.body.take chain_desc.partition_name_len,
             (d.body.drop chain_desc.partition_name_len).take chain_desc.public_key_len⟩])
    else collectChains ds chain_partitions

/-- Embeds `GetChainPartitionInfo(vbmeta, &fatal_error)`: input is the outcome of
`avb_descriptor_get_all` on the blob; returns the collected chain partitions
and the fatal flag. -/
def GetChainPartitionInfo : Option (List RawDescriptor) → List ChainInfo × Bool
  | none => ([], false)
  | some descriptors =>
    if descriptors.length < 1 then ([], false)
    else collectChains descriptors []

/-- Embeds `RollbackDetected`: the source stubs rollback protection to always
report no rollback. -/
def RollbackDetected (_partition_name : List Char) (_rollback_index : Nat) : Bool := false

/-- The chain-descriptor loop of `LoadAndVerifyVbmetaImpl` (lines 501-513):
`f` is the recursive call on one chain entry (threading the accumulator); a
child verdict other than `kSuccess` replaces the running verdict, and the
loop returns `kError` as soon as the running verdict is `kError`. -/
def chainLoop (f : ChainInfo → List VBMetaD → VBMetaVerifyResult × List VBMetaD) :
    List ChainInfo → VBMetaVerifyResult → List VBMetaD → VBMetaVerifyResult × List VBMetaD
  | [], verify_result, acc => (verify_result, acc)
  | chain :: chains, verify_result, acc =>
    let sub := f chain acc
    let verify_result1 := if sub.1 ≠ .kSuccess then sub.1 else verify_result
    if verify_result1 = .kError then (.kError, sub.2)
    else chainLoop f chains verify_result1 sub.2

/-- Per-device-path environment of the chain walker: whether
`WaitForFile(device_path, 1s)` succeeds, whether `open` succeeds, and the
`VerifyVBMetaData` environment for the opened descriptor. -/
structure NodeInfo where
  waitOk : Bool
  openOk : Bool
  vbmetaEnv : VBMetaDataEnv

/-- Environment of the chain walker: the per-path node data and the
caller-supplied `device_path_constructor`. -/
structure WalkEnv where
  disk : List Char → NodeInfo
  ctor : List Char → List Char

/-- The node a walker invocation operates on. -/
def walkNode (env : WalkEnv) (partition_name ab_suffix ab_other_suffix : List Char) : NodeInfo :=
  env.disk (env.ctor (AvbPartitionToDevicePatition partition_name ab_suffix ab_other_suffix))

/-- Embeds `LoadAndVerifyVbmetaImpl`, with explicit recursion fuel (the source
recursion is bounded by the chain tree depth; fuel `0` is never reached on
the inputs of the theorems below).  The `out_vbmeta_images` accumulator is
modelled as always non-null, as at every call site. -/
def LoadAndVerifyVbmetaImpl (env : WalkEnv) :
    Nat → List Char → List Char → List Char → List Char → Bool → Bool → Bool → Bool →
    List VBMetaD → VBMetaVerifyResult × List VBMetaD
  | 0, _, _, _, _, _, _, _, _, out_vbmeta_images => (.kError, out_vbmeta_images)
  | fuel + 1, partition_name, ab_suffix, ab_other_suffix, expected_public_key_blob,
      allow_verification_error, load_chained_vbmeta, rollback_protection, is_chained_vbmeta,
      out_vbmeta_images =>
    let node := walkNode env partition_name ab_suffix ab_other_suffix
    if !node.waitOk then (.kError, out_vbmeta_images)
    else if !node.openOk then (.kError, out_vbmeta_images)
    else match VerifyVBMetaData node.vbmetaEnv partition_name expected_public_key_blob with
    | (some vbmeta, some verify_result) =>
      if !allow_verification_error && verify_result = .kErrorVerification then
        (.kError, out_vbmeta_images)
      else
        let vh := GetVBMetaHeader vbmeta
        if rollback_protection && RollbackDetected partition_name vh.1.rollback_index then
          (.kError, out_vbmeta_images)
        else if is_chained_vbmeta && vh.1.flags ≠ 0 then (.kError, out_vbmeta_images)
        else
          let out1 := out_vbmeta_images ++ [vh.2]
          if vh.1.flags &&& AVB_VBMETA_IMAGE_FLAGS_VERIFICATION_DISABLED ≠ 0 then
            (verify_result, out1)
          else if load_chained_vbmeta then
            match GetChainPartitionInfo vh.2.descriptors with
            | (_, true) => (.kError, out1)
            | (chain_partitions, false) =>
              chainLoop
                (fun chain acc =>
                  LoadAndVerifyVbmetaImpl env fuel chain.partition_name ab_suffix ab_other_suffix
                    chain.public_key_blob allow_verification_error load_chained_vbmeta
                    rollback_protection true acc)
                chain_partitions verify_result out1
          else (verify_result, out1)
    | _ => (.kError, out_vbmeta_images)

/-- One hexadecimal digit, lowercase. -/
def hexDigit (n : Nat) : Char := "0123456789abcdef".toList.getD n '0'

/-- Modelled from the spec: `BytesToHex` (declared in `util.h`, definition
not part of this tree) hex-encodes a byte range. -/
def BytesToHex (bytes : List Char) : List Char :=
  bytes.flatMap (fun b => [hexDigit (b.toNat / 16), hexDigit (b.toNat % 16)])

/-- The inner descriptor loop of `GetHashtreeDescriptor`: first descriptor
that validates generically, has the hashtree tag, validates as a hashtree
descriptor, and whose name length and name bytes both match the queried
partition name.  Returns the parsed descriptor together with its trailing
bytes. -/
def findHashtreeInDescriptors (partition_name : List Char) :
    List RawDescriptor → Option (AvbHashtreeDescriptor × List Char)
  | [] => none
  | d :: ds =>
    if !d.headerValid then findHashtreeInDescriptors partition_name ds
    else if d.tag = AVB_DESCRIPTOR_TAG_HASHTREE then
      match d.hashtreeDesc with
      | none => findHashtreeInDescriptors partition_name ds
      | some hashtree_desc =>
        if hashtree_desc.partition_name_len ≠ partition_name.length then
          findHashtreeInDescriptors partition_name ds
        else if d.body.take hashtree_desc.partition_name_len = partition_name then
          some (hashtree_desc, d.body)
        else findHashtreeInDescriptors partition_name ds
    else findHashtreeInDescriptors partition_name ds

/-- Embeds `GetHashtreeDescriptor(partition_name, vbmeta_images, out_hashtree_desc,
out_salt, out_digest)`: walks the verified VBMeta list; on the first match
returns the descriptor, the hex-encoded salt and the hex-encoded root
digest; `none` models the `false` return. -/
def GetHashtreeDescriptor (partition_name : List Char) :
    List VBMetaD → Option (AvbHashtreeDescriptor × List Char × List Char)
  | [] => none
  | vbmeta :: vbmetas =>
    match vbmeta.descriptors with
    | none => GetHashtreeDescriptor partition_name vbmetas
    | some descriptors =>
      if descriptors.length < 1 then GetHashtreeDescriptor partition_name vbmetas
      else match findHashtreeInDescriptors partition_name descriptors with
      | some (hashtree_desc, body) =>
        let desc_salt := body.drop hashtree_desc.partition_name_len
        let desc_digest := desc_salt.drop hashtree_desc.salt_len
        some (hashtree_desc, BytesToHex (desc_salt.take hashtree_desc.salt_len),
              BytesToHex (desc_digest.take hashtree_desc.root_digest_len))
      | none => GetHashtreeDescriptor partition_name vbmetas

/-!  Concrete fixtures used to instantiate quantified theorems. -/

/-- Concrete hashtree descriptor: 8 KiB image of two 4 KiB data blocks, no
FEC. -/
def descFec0 : AvbHashtreeDescriptor :=
  { dm_verity_version := 1
    image_size := 8192
    tree_offset := 8192
    data_block_size := 4096
    hash_block_size := 4096
    fec_num_roots := 0
    fec_offset := 0
    fec_size := 0
    hash_algorithm := "sha1".toList
    partition_name_len := 6
    salt_len := 0
    root_digest_len := 0 }

/-- The target `ConstructVerityTable` builds from `descFec0` with an absent
veritymode and empty salt, digest and device strings. -/
def targetFec0 : DmTargetVerity :=
  { start := 0
    length := 16
    version := 1
    data_device := []
    hash_device := []
    data_block_size := 4096
    hash_block_size := 4096
    num_data_blocks := 2
    hash_start_block := 2
    hash_algorithm := "sha1".toList
    root_digest := []
    salt := []
    fec := none
    verity_mode := some "restart_on_corruption".toList
    ignore_zero_blocks := true }

/-- Concrete hashtree descriptor whose image size is not a multiple of its
data block size. -/
def descRagged : AvbHashtreeDescriptor :=
  { dm_verity_version := 1
    image_size := 4097
    tree_offset := 8192
    data_block_size := 4096
    hash_block_size := 4096
    fec_num_roots := 0
    fec_offset := 0
    fec_size := 0
    hash_algorithm := "sha1".toList
    partition_name_len := 6
    salt_len := 0
    root_digest_len := 0 }

/-- Concrete header of a chained vbmeta image carrying only the
`VERIFICATION_DISABLED` flag. -/
def headerVD : AvbVBMetaImageHeader :=
  { authentication_data_block_size := 0
    auxiliary_data_block_size := 0
    flags := AVB_VBMETA_IMAGE_FLAGS_VERIFICATION_DISABLED
    rollback_index := 0 }

/-- Concrete per-partition node: present, opens fine, and its vbmeta loads
and verifies with verdict `OK` under any expected key, with header
`headerVD`. -/
def nodeVD : NodeInfo :=
  { waitOk := true
    openOk := true
    vbmetaEnv :=
      { footer := some ⟨0, 1024⟩
        pread := fun _ _ => some 1024
        avbOutcome := ⟨.OK, some ['k'], 1⟩
        header := headerVD
        descriptors := some [] } }

/-- Concrete walker environment: every device path resolves to `nodeVD` and
the device-path constructor is the identity. -/
def envVD : WalkEnv :=
  { disk := fun _ => nodeVD
    ctor := fun p => p }

/-- The `VBMetaData` that `VerifyVBMetaData` produces for partition
`"vendor"` under `nodeVD`. -/
def vbVD : VBMetaD :=
  { partition := "vendor".toList
    size := 1024
    header := headerVD
    descriptors := some [] }

/-!  Theorems settling the claims. -/

/-- Claim C1: `VerifyVBMetaSignature` maps the AVB primitive verdict to a
`VBMetaVerifyResult` as follows: `OK` with an empty expected key, or `OK`
with a recovered key byte-equal to a non-empty expected key, yields
`kSuccess`; `OK` with a recovered key differing in length or content from a
non-empty expected key yields `kErrorVerification`; `OK_NOT_SIGNED`,
`HASH_MISMATCH` and `SIGNATURE_MISMATCH` yield `kErrorVerification`;
`INVALID_VBMETA_HEADER`, `UNSUPPORTED_VERSION` and any unknown verdict yield
`kError`; and `OK` with a null recovered-key pointer or zero key length
yields `kError`. -/
theorem C1_signature_verdict_mapping (pk : List Char) (pk_len : Nat)
    (expected : List Char) (pkd : Option (List Char)) (code : Nat) :
    (expected = [] → pk_len ≠ 0 →
      VerifyVBMetaSignature ⟨.OK, some pk, pk_len⟩ expected = .kSuccess) ∧
    (expected ≠ [] → pk_len ≠ 0 → expected.length = pk_len → pk.take pk_len = expected →
      VerifyVBMetaSignature ⟨.OK, some pk, pk_len⟩ expected = .kSuccess) ∧
    (expected ≠ [] → pk_len ≠ 0 → (expected.length ≠ pk_len ∨ pk.take pk_len ≠ expected) →
      VerifyVBMetaSignature ⟨.OK, some pk, pk_len⟩ expected = .kErrorVerification) ∧
    (VerifyVBMetaSignature ⟨.OK_NOT_SIGNED, pkd, pk_len⟩ expected = .kErrorVerification) ∧
    (VerifyVBMetaSignature ⟨.HASH_MISMATCH, pkd, pk_len⟩ expected = .kErrorVerification) ∧
    (VerifyVBMetaSignature ⟨.SIGNATURE_MISMATCH, pkd, pk_len⟩ expected = .kErrorVerification) ∧
    (VerifyVBMetaSignature ⟨.INVALID_VBMETA_HEADER, pkd, pk_len⟩ expected = .kError) ∧
    (VerifyVBMetaSignature ⟨.UNSUPPORTED_VERSION, pkd, pk_len⟩ expected = .kError) ∧
    (VerifyVBMetaSignature ⟨.UNKNOWN_VERDICT code, pkd, pk_len⟩ expected = .kError) ∧
    (VerifyVBMetaSignature ⟨.OK, none, pk_len⟩ expected = .kError) ∧
    (VerifyVBMetaSignature ⟨.OK, some pk, 0⟩ expected = .kError) := by
  refine ⟨?_, ?_, ?_, rfl, rfl, rfl, rfl, rfl, rfl, rfl, rfl⟩
  · intro he hn
    simp [VerifyVBMetaSignature, VerifyPublicKeyBlob, he, hn]
  · intro he hn hlen hcontent
    simp [VerifyVBMetaSignature, VerifyPublicKeyBlob, List.isEmpty_iff, he, hn, hlen, hcontent]
  · intro he hn hdiff
    rcases hdiff with hlen | hcontent
    · simp [VerifyVBMetaSignature, VerifyPublicKeyBlob, List.isEmpty_iff, he, hn, hlen]
    · simp only [VerifyVBMetaSignature, VerifyPublicKeyBlob, List.isEmpty_iff]
      rw [if_neg he, if_neg hn]
      by_cases hlen : expected.length ≠ pk_len
      · simp [hlen]
      · simp [hlen, hcontent]

/-- Witness for C1: a concrete `OK` outcome with a valid key pointer and an
empty expected key verifies as `kSuccess`. -/
theorem C1_signature_verdict_mapping_witness :
    VerifyVBMetaSignature ⟨.OK, some ['k'], 1⟩ [] = .kSuccess :=
  (C1_signature_verdict_mapping ['k'] 1 [] none 0).1 rfl (by decide)

/-- Claim C3, counterexample: `AvbPartitionToDevicePatition` with empty
suffixes is not the identity on every string; it strips a trailing
`"_other"` part, so `"system_other"` maps to `"system"`. -/
theorem C3_counterexample :
    AvbPartitionToDevicePatition "system_other".toList [] [] = "system".toList ∧
    "system".toList ≠ "system_other".toList := by
  constructor
  · decide
  · decide

/-- Claim C3, amended: with empty A/B suffixes the partition-name
transformation is the identity on every string in which `"_other"` does not
occur. -/
theorem C3_identity_without_other (x : List Char)
    (h : rfindSubstr "_other".toList x = none) :
    AvbPartitionToDevicePatition x [] [] = x := by
  unfold AvbPartitionToDevicePatition
  rw [h]
  exact List.append_nil x

/-- Witness for C3: the transformation is the identity on `"system"`. -/
theorem C3_identity_without_other_witness :
    AvbPartitionToDevicePatition "system".toList [] [] = "system".toList :=
  C3_identity_without_other "system".toList (by decide)

/-- Claim C5: in the chain-descriptor loop, a child returning `kError` is
propagated immediately without visiting the remaining siblings; a child
returning `kErrorVerification` replaces the running verdict and the loop
continues with the remaining siblings; a child returning `kSuccess` leaves
the running verdict unchanged; and the final running verdict is returned.
The running verdict is never `kError` at loop entry (the loop exits as soon
as it becomes `kError`). -/
theorem C5_chain_loop_merging
    (f : ChainInfo → List VBMetaD → VBMetaVerifyResult × List VBMetaD)
    (chain : ChainInfo) (chains : List ChainInfo) (verify_result : VBMetaVerifyResult)
    (acc : List VBMetaD) (hr : verify_result ≠ .kError) :
    ((f chain acc).1 = .kError →
      chainLoop f (chain :: chains) verify_result acc = (.kError, (f chain acc).2)) ∧
    ((f chain acc).1 = .kErrorVerification →
      chainLoop f (chain :: chains) verify_result acc =
        chainLoop f chains .kErrorVerification (f chain acc).2) ∧
    ((f chain acc).1 = .kSuccess →
      chainLoop f (chain :: chains) verify_result acc =
        chainLoop f chains verify_result (f chain acc).2) ∧
    (chainLoop f [] verify_result acc = (verify_result, acc)) := by
  refine ⟨?_, ?_, ?_, rfl⟩
  · intro h
    simp [chainLoop, h]
  · intro h
    simp [chainLoop, h]
  · intro h
    simp [chainLoop, h, hr]

/-- Witness for C5: the loop over no siblings returns the running verdict
and leaves the accumulator unchanged. -/
theorem C5_chain_loop_merging_witness :
    chainLoop (fun _ acc => (.kSuccess, acc)) [] .kSuccess [] = (.kSuccess, []) :=
  (C5_chain_loop_merging (fun _ acc => (.kSuccess, acc)) ⟨[], []⟩ [] .kSuccess []
    (by decide)).2.2.2

/-- Claim C8: `ConstructVerityTable` maps the boot-time `veritymode` key to
the kernel mode string as: absent or `"enforcing"` to
`restart_on_corruption`, `"logging"` to `ignore_corruption`, `"eio"` to no
mode string; and for any other value it fails, so that no device-mapper
device is created. -/
theorem C8_verity_mode_mapping (hashtree_desc : AvbHashtreeDescriptor)
    (salt root_digest blk_device m : List Char) :
    ((ConstructVerityTable none hashtree_desc salt root_digest blk_device).map
        DmTargetVerity.verity_mode = some (some "restart_on_corruption".toList)) ∧
    ((ConstructVerityTable (some "enforcing".toList) hashtree_desc salt root_digest
        blk_device).map DmTargetVerity.verity_mode =
        some (some "restart_on_corruption".toList)) ∧
    ((ConstructVerityTable (some "logging".toList) hashtree_desc salt root_digest
        blk_device).map DmTargetVerity.verity_mode =
        some (some "ignore_corruption".toList)) ∧
    ((ConstructVerityTable (some "eio".toList) hashtree_desc salt root_digest
        blk_device).map DmTargetVerity.verity_mode = some none) ∧
    (m ≠ "enforcing".toList → m ≠ "logging".toList → m ≠ "eio".toList →
      ConstructVerityTable (some m) hashtree_desc salt root_digest blk_device = none) := by
  refine ⟨rfl, rfl, rfl, rfl, ?_⟩
  intro h1 h2 h3
  simp only [ConstructVerityTable, Option.getD_some]
  rw [if_neg h1, if_neg h2, if_pos h3]

/-- Witness for C8: the unknown veritymode `"foo"` makes the construction
fail on a concrete descriptor. -/
theorem C8_verity_mode_mapping_witness :
    ConstructVerityTable (some "foo".toList) descFec0 [] [] [] = none :=
  (C8_verity_mode_mapping descFec0 [] [] [] "foo".toList).2.2.2.2
    (by decide) (by decide) (by decide)

/-- Claim C6, counterexample: the produced target satisfies
`num_data_blocks * data_block_size = image_size` only when the data block
size divides the image size; the source computes `num_data_blocks` by
truncating division, so a descriptor with `image_size = 4097` and
`data_block_size = 4096` yields a target with
`num_data_blocks * data_block_size = 4096 ≠ 4097`. -/
theorem C6_counterexample :
    (ConstructVerityTable none descRagged [] [] []).map
        (fun t => t.num_data_blocks * descRagged.data_block_size) = some 4096 ∧
    descRagged.image_size = 4097 ∧ (4096 : Nat) ≠ 4097 := by
  refine ⟨by decide, rfl, by decide⟩

/-- Claim C6, amended: for every verity target produced by
`ConstructVerityTable` from a hashtree descriptor whose `data_block_size`
divides its `image_size`, the target `num_data_blocks` multiplied by the
descriptor `data_block_size` equals the descriptor `image_size`. -/
theorem C6_data_blocks_cover_image (boot_veritymode : Option (List Char))
    (hashtree_desc : AvbHashtreeDescriptor) (salt root_digest blk_device : List Char)
    (t : DmTargetVerity)
    (h : ConstructVerityTable boot_veritymode hashtree_desc salt root_digest blk_device = some t)
    (hdvd : hashtree_desc.data_block_size ∣ hashtree_desc.image_size) :
    t.num_data_blocks * hashtree_desc.data_block_size = hashtree_desc.image_size := by
  simp only [ConstructVerityTable] at h
  split at h
  · exact absurd h (by simp)
  · cases h
    simpa using Nat.div_mul_cancel hdvd

/-- Witness for C6: on `descFec0` (8192 = 2 * 4096) the produced target has
`num_data_blocks * data_block_size = image_size`. -/
theorem C6_data_blocks_cover_image_witness :
    targetFec0.num_data_blocks * descFec0.data_block_size = descFec0.image_size :=
  C6_data_blocks_cover_image none descFec0 [] [] [] targetFec0 (by decide) (by decide)

/-- Claim C9: `ConstructVerityTable` attaches FEC parameters to the verity
target if and only if `fec_size > 0`, and when it does, both the `fec_start`
and the `fec_blocks` positions of `UseFec` carry the same value
`fec_offset / data_block_size`; when `fec_size = 0` no FEC parameters appear
in the table. -/
theorem C9_fec_parameters (boot_veritymode : Option (List Char))
    (hashtree_desc : AvbHashtreeDescriptor) (salt root_digest blk_device : List Char)
    (t : DmTargetVerity)
    (h : ConstructVerityTable boot_veritymode hashtree_desc salt root_digest blk_device =
      some t) :
    (0 < hashtree_desc.fec_size →
      t.fec = some ⟨blk_device, hashtree_desc.fec_num_roots,
                    hashtree_desc.fec_offset / hashtree_desc.data_block_size,
                    hashtree_desc.fec_offset / hashtree_desc.data_block_size⟩) ∧
    (hashtree_desc.fec_size = 0 → t.fec = none) := by
  simp only [ConstructVerityTable] at h
  split at h
  · exact absurd h (by simp)
  · cases h
    constructor
    · intro hf
      simp [hf]
    · intro hf
      simp [hf]

/-- Witness for C9: `descFec0` has `fec_size = 0` and its target carries no
FEC parameters. -/
theorem C9_fec_parameters_witness : targetFec0.fec = none :=
  (C9_fec_parameters none descFec0 [] [] [] targetFec0 (by decide)).2 rfl

/-- Claim C10: `HashtreeDmVeritySetup` is not atomic on its last failure
path: when the mapper device is created and its path is obtained but the
caller asked to wait and the path does not appear, the function returns
failure with `fstab_entry.blk_device` already replaced by the new mapper
path; on every failure path before device creation succeeds,
`fstab_entry.blk_device` (indeed the whole entry) is unchanged. -/
theorem C10_setup_atomicity (env : DmEnv) (fstab_entry : FstabEntry)
    (hashtree_desc : AvbHashtreeDescriptor) (salt root_digest : List Char) :
    (ConstructVerityTable env.boot_veritymode hashtree_desc salt root_digest
        fstab_entry.blk_device = none →
      ∀ wait, HashtreeDmVeritySetup env fstab_entry hashtree_desc salt root_digest wait =
        (false, fstab_entry)) ∧
    (env.table_valid = false →
      ∀ wait, HashtreeDmVeritySetup env fstab_entry hashtree_desc salt root_digest wait =
        (false, fstab_entry)) ∧
    (env.create_device_ok = false →
      ∀ wait, HashtreeDmVeritySetup env fstab_entry hashtree_desc salt root_digest wait =
        (false, fstab_entry)) ∧
    (env.dm_device_path = none →
      ∀ wait, HashtreeDmVeritySetup env fstab_entry hashtree_desc salt root_digest wait =
        (false, fstab_entry)) ∧
    (∀ t dev_path,
      ConstructVerityTable env.boot_veritymode hashtree_desc salt root_digest
        fstab_entry.blk_device = some t →
      env.table_valid = true → env.create_device_ok = true →
      env.dm_device_path = some dev_path → env.wait_for_file dev_path = false →
      HashtreeDmVeritySetup env fstab_entry hashtree_desc salt root_digest true =
        (false, { fstab_entry with blk_device := dev_path })) := by
  refine ⟨?_, ?_, ?_, ?_, ?_⟩
  · intro hc wait
    simp [HashtreeDmVeritySetup, hc]
  · intro hv wait
    cases hc : ConstructVerityTable env.boot_veritymode hashtree_desc salt root_digest
        fstab_entry.blk_device with
    | none => simp [HashtreeDmVeritySetup, hc]
    | some t => simp [HashtreeDmVeritySetup, hc, hv]
  · intro hcd wait
    cases hc : ConstructVerityTable env.boot_veritymode hashtree_desc salt root_digest
        fstab_entry.blk_device with
    | none => simp [HashtreeDmVeritySetup, hc]
    | some t =>
      cases hv : env.table_valid with
      | false => simp [HashtreeDmVeritySetup, hc, hv]
      | true => simp [HashtreeDmVeritySetup, hc, hv, hcd]
  · intro hp wait
    cases hc : ConstructVerityTable env.boot_veritymode hashtree_desc salt root_digest
        fstab_entry.blk_device with
    | none => simp [HashtreeDmVeritySetup, hc]
    | some t =>
      cases hv : env.table_valid with
      | false => simp [HashtreeDmVeritySetup, hc, hv]
      | true =>
        cases hcd : env.create_device_ok with
        | false => simp [HashtreeDmVeritySetup, hc, hv, hcd]
        | true => simp [HashtreeDmVeritySetup, hc, hv, hcd, hp]
  · intro t dev_path hc hv hcd hp hw
    simp [HashtreeDmVeritySetup, hc, hv, hcd, hp, hw]

/-- Witness for C10: with a concrete environment in which construction,
device creation and path lookup succeed but the 1-second wait fails, the
setup fails with `blk_device` already replaced. -/
theorem C10_setup_atomicity_witness :
    HashtreeDmVeritySetup
      ⟨none, true, true, some "dm-0".toList, fun _ => false⟩
      ⟨"sda".toList, "system".toList⟩ descFec0 [] [] true =
      (false, ⟨"dm-0".toList, "system".toList⟩) :=
  (C10_setup_atomicity ⟨none, true, true, some "dm-0".toList, fun _ => false⟩
      ⟨"sda".toList, "system".toList⟩ descFec0 [] []).2.2.2.2
    { targetFec0 with data_device := "sda".toList, hash_device := "sda".toList }
    "dm-0".toList (by decide) rfl rfl rfl rfl

/-- Claim C4: `VerifyVBMetaData` reads at offset 0 with size
`kMaxVBMetaSize` and accepts a partial read (any returned byte count)
whenever the partition name begins with `"vbmeta"`; for every other
partition it reads at the footer `vbmeta_offset` with the footer
`vbmeta_size`, fails when that size exceeds the maximum, and fails unless
the read returns exactly `vbmeta_size` bytes.  In the accepting cases the
result is determined by the signature verdict on the blob. -/
theorem C4_read_locations (env : VBMetaDataEnv) (partition_name expected : List Char) :
    (("vbmeta".toList).isPrefixOf partition_name = true →
      (env.pread kMaxVBMetaSize 0 = none →
        VerifyVBMetaData env partition_name expected = (none, none)) ∧
      (∀ num_read, env.pread kMaxVBMetaSize 0 = some num_read →
        VerifyVBMetaData env partition_name expected =
          (let r := VerifyVBMetaSignature env.avbOutcome expected
           if r = .kSuccess ∨ r = .kErrorVerification then
             (some ⟨partition_name, kMaxVBMetaSize, env.header, env.descriptors⟩, some r)
           else (none, some r)))) ∧
    (("vbmeta".toList).isPrefixOf partition_name = false →
      (env.footer = none → VerifyVBMetaData env partition_name expected = (none, none)) ∧
      (∀ footer, env.footer = some footer →
        (footer.vbmeta_size > kMaxVBMetaSize →
          VerifyVBMetaData env partition_name expected = (none, none)) ∧
        (footer.vbmeta_size ≤ kMaxVBMetaSize →
          (env.pread footer.vbmeta_size footer.vbmeta_offset = none →
            VerifyVBMetaData env partition_name expected = (none, none)) ∧
          (∀ num_read, env.pread footer.vbmeta_size footer.vbmeta_offset = some num_read →
            num_read ≠ footer.vbmeta_size →
            VerifyVBMetaData env partition_name expected = (none, none)) ∧
          (env.pread footer.vbmeta_size footer.vbmeta_offset = some footer.vbmeta_size →
            VerifyVBMetaData env partition_name expected =
              (let r := VerifyVBMetaSignature env.avbOutcome expected
               if r = .kSuccess ∨ r = .kErrorVerification then
                 (some ⟨partition_name, footer.vbmeta_size, env.header, env.descriptors⟩,
                  some r)
               else (none, some r)))))) := by
  constructor
  · intro hvb
    have h1 : ['v', 'b', 'm', 'e', 't', 'a'] <+: partition_name :=
      List.isPrefixOf_iff_prefix.mp hvb
    have hvb1 : (['v', 'b', 'm', 'e', 't', 'a'].isPrefixOf partition_name) = true := hvb
    constructor
    · intro hr
      have hr1 : env.pread 65536 0 = none := hr
      simp [VerifyVBMetaData, h1, hvb1, hr1, kMaxVBMetaSize]
    · intro num_read hr
      have hr1 : env.pread 65536 0 = some num_read := hr
      simp [VerifyVBMetaData, h1, hvb1, hr1, kMaxVBMetaSize]
  · intro hvb
    have hvb1 : (['v', 'b', 'm', 'e', 't', 'a'].isPrefixOf partition_name) = false := hvb
    have h1 : ¬ (['v', 'b', 'm', 'e', 't', 'a'] <+: partition_name) := by
      simp [← List.isPrefixOf_iff_prefix, hvb1]
    constructor
    · intro hf
      simp [VerifyVBMetaData, h1, hvb1, hf]
    · intro footer hf
      refine ⟨?_, ?_⟩
      · intro hbig
        simp [VerifyVBMetaData, h1, hvb1, hf, hbig]
      · intro hsz
        refine ⟨?_, ?_, ?_⟩
        · intro hr
          simp [VerifyVBMetaData, h1, hvb1, hf, hr, Nat.not_lt.mpr hsz]
        · intro num_read hr hne
          simp [VerifyVBMetaData, h1, hvb1, hf, hr, hne, Nat.not_lt.mpr hsz]
        · intro hr
          simp [VerifyVBMetaData, h1, hvb1, hf, hr, Nat.not_lt.mpr hsz]

/-- Witness for C4: a concrete partition named `"vbmeta"` whose read returns
only 100 of the 65536 requested bytes still verifies. -/
theorem C4_read_locations_witness :
    VerifyVBMetaData
      ⟨none, fun _ _ => some 100, ⟨.OK, some ['k'], 1⟩, headerVD, some []⟩
      "vbmeta".toList [] =
      (some ⟨"vbmeta".toList, kMaxVBMetaSize, headerVD, some []⟩, some .kSuccess) := by
  have h := ((C4_read_locations
      ⟨none, fun _ _ => some 100, ⟨.OK, some ['k'], 1⟩, headerVD, some []⟩
      "vbmeta".toList []).1 (by decide)).2 100 rfl
  rw [h]
  decide

/-- The inner loop of `GetHashtreeDescriptor` finds a descriptor exactly
when the list contains one that validates generically, carries the hashtree
tag, validates as a hashtree descriptor, and whose name length and name
bytes both match the queried partition name. -/
theorem findHashtreeInDescriptors_isSome (partition_name : List Char)
    (ds : List RawDescriptor) :
    (findHashtreeInDescriptors partition_name ds).isSome = true ↔
    ∃ d ∈ ds, d.headerValid = true ∧ d.tag = AVB_DESCRIPTOR_TAG_HASHTREE ∧
      ∃ hd, d.hashtreeDesc = some hd ∧ hd.partition_name_len = partition_name.length ∧
        d.body.take hd.partition_name_len = partition_name := by
  induction ds with
  | nil => simp [findHashtreeInDescriptors]
  | cons d ds ih =>
    by_cases hv : d.headerValid = true
    · by_cases ht : d.tag = AVB_DESCRIPTOR_TAG_HASHTREE
      · cases hh : d.hashtreeDesc with
        | none => simp [findHashtreeInDescriptors, hv, ht, hh, ih]
        | some hd =>
          by_cases hlen : hd.partition_name_len = partition_name.length
          · by_cases hbytes : d.body.take partition_name.length = partition_name
            · simp [findHashtreeInDescriptors, hv, ht, hh, hlen, hbytes]
            · simp [findHashtreeInDescriptors, hv, ht, hh, hlen, hbytes, ih]
          · simp [findHashtreeInDescriptors, hv, ht, hh, hlen, ih]
      · simp [findHashtreeInDescriptors, hv, ht, ih]
    · simp [findHashtreeInDescriptors, hv, ih]

/-- Claim C7: `GetHashtreeDescriptor` succeeds if and only if some VBMeta in
the list has a descriptor table containing a hashtree descriptor that passes
validate-and-byteswap (generic and hashtree-specific), whose
`partition_name_len` equals the length of the queried name, and whose name
bytes equal the queried name; descriptors failing validate-and-byteswap are
skipped without aborting the scan, and when no descriptor matches the
function fails. -/
theorem C7_get_hashtree_descriptor_iff (partition_name : List Char)
    (vbmeta_images : List VBMetaD) :
    (GetHashtreeDescriptor partition_name vbmeta_images).isSome = true ↔
    ∃ vbmeta ∈ vbmeta_images, ∃ ds, vbmeta.descriptors = some ds ∧
      ∃ d ∈ ds, d.headerValid = true ∧ d.tag = AVB_DESCRIPTOR_TAG_HASHTREE ∧
        ∃ hd, d.hashtreeDesc = some hd ∧ hd.partition_name_len = partition_name.length ∧
          d.body.take hd.partition_name_len = partition_name := by
  induction vbmeta_images with
  | nil => simp [GetHashtreeDescriptor]
  | cons v vs ih =>
    cases hdescs : v.descriptors with
    | none => simp [GetHashtreeDescriptor, hdescs, ih]
    | some ds =>
      by_cases hempty : ds.length < 1
      · have hds : ds = [] := List.length_eq_zero.mp (Nat.lt_one_iff.mp hempty)
        subst hds
        simp [GetHashtreeDescriptor, hdescs, ih]
      · have hiff := findHashtreeInDescriptors_isSome partition_name ds
        cases hfind : findHashtreeInDescriptors partition_name ds with
        | none =>
          rw [hfind] at hiff
          simp only [Option.isSome_none, Bool.false_eq_true, false_iff] at hiff
          simp [GetHashtreeDescriptor, hdescs, hempty, hfind, ih, hiff]
        | some p =>
          rw [hfind] at hiff
          simp only [Option.isSome_some, true_iff] at hiff
          simp [GetHashtreeDescriptor, hdescs, hempty, hfind, hiff]

/-- Claim C2, counterexample: in the concrete environment `envVD` the
chained partition `"vendor"` loads and verifies fine and its header carries
exactly the `VERIFICATION_DISABLED` flag, yet the walker returns `kError`,
not `kSuccess`: a chained vbmeta with any non-zero flags is rejected before
the `VERIFICATION_DISABLED` check is reached. -/
theorem C2_counterexample :
    (headerVD.flags &&& AVB_VBMETA_IMAGE_FLAGS_VERIFICATION_DISABLED ≠ 0) ∧
    LoadAndVerifyVbmetaImpl envVD 1 "vendor".toList [] [] [] true true true true [] =
      (.kError, []) ∧
    VBMetaVerifyResult.kError ≠ VBMetaVerifyResult.kSuccess := by
  refine ⟨by decide, by decide, by decide⟩

/-- Claim C2, amended: a chained call (`is_chained_vbmeta = true`) whose
verified VBMeta header has any non-zero flags — in particular the
`VERIFICATION_DISABLED` flag — returns `kError` without recursing; the
log-a-warning-and-return-the-current-verdict-without-recursing behavior on
`VERIFICATION_DISABLED` applies to a top-level call
(`is_chained_vbmeta = false`). -/
theorem C2_verification_disabled_behavior (env : WalkEnv) (fuel : Nat)
    (partition_name ab_suffix ab_other_suffix expected_key : List Char)
    (allow_verification_error load_chained_vbmeta rollback_protection : Bool)
    (acc : List VBMetaD) (vb : VBMetaD) (r : VBMetaVerifyResult)
    (hwait : (walkNode env partition_name ab_suffix ab_other_suffix).waitOk = true)
    (hopen : (walkNode env partition_name ab_suffix ab_other_suffix).openOk = true)
    (hload : VerifyVBMetaData (walkNode env partition_name ab_suffix ab_other_suffix).vbmetaEnv
      partition_name expected_key = (some vb, some r))
    (hallow : allow_verification_error = true ∨ r ≠ .kErrorVerification) :
    (vb.header.flags ≠ 0 →
      LoadAndVerifyVbmetaImpl env (fuel + 1) partition_name ab_suffix ab_other_suffix
        expected_key allow_verification_error load_chained_vbmeta rollback_protection true acc =
        (.kError, acc)) ∧
    (vb.header.flags &&& AVB_VBMETA_IMAGE_FLAGS_VERIFICATION_DISABLED ≠ 0 →
      LoadAndVerifyVbmetaImpl env (fuel + 1) partition_name ab_suffix ab_other_suffix
        expected_key allow_verification_error load_chained_vbmeta rollback_protection false acc =
        (r, acc ++ [(GetVBMetaHeader vb).2])) := by
  have hne : (!allow_verification_error && decide (r = VBMetaVerifyResult.kErrorVerification)) =
      false := by
    rcases hallow with h | h
    · simp [h]
    · simp [h]
  constructor
  · intro hflags
    simp [LoadAndVerifyVbmetaImpl, hwait, hopen, hload, hne, RollbackDetected,
      GetVBMetaHeader, hflags]
  · intro hvd
    have hflags : vb.header.flags ≠ 0 := by
      intro h0
      rw [h0] at hvd
      exact hvd rfl
    simp [LoadAndVerifyVbmetaImpl, hwait, hopen, hload, hne, RollbackDetected,
      GetVBMetaHeader, hvd]

/-- Witness for C2 (amended): in the concrete environment `envVD` the
chained `"vendor"` call returns `kError`. -/
theorem C2_verification_disabled_behavior_witness :
    LoadAndVerifyVbmetaImpl envVD 1 "vendor".toList [] [] [] true true true true [] =
      (.kError, []) :=
  (C2_verification_disabled_behavior envVD 0 "vendor".toList [] [] [] true true true []
    vbVD .kSuccess (by decide) (by decide) (by decide) (Or.inl rfl)).1 (by decide)

end AvbUtil
